import Mathlib

/-!
Verification of the `api-server` repository (FastAPI CRUD backend with LINE
OAuth login, JWT sessions and user-scoped items/posts) against its
natural-language specification.

The Python source is shallowly embedded: the database session is replaced by
an explicit store (a list of rows), every repository/service method becomes a
pure function from the store to an `Except`-style result (an `.error` result
models a raised exception, i.e. a rolled-back transaction that leaves the
store unchanged), `Decimal` values are embedded exactly as a mantissa with a
decimal scale, and Python string operations (`strip`, `lower`, `split`,
`int(...)`) are reimplemented over `List Char`.  Unicode-only divergences
(non-ASCII lowercasing, exotic whitespace, underscores in integer literals)
are outside the behaviour any claim exercises and are noted where relevant.
-/

/-! ## Python string primitives -/

/-- Characters treated as whitespace by Python `str.strip()` / `str.split()`
(restricted to the ASCII whitespace actually exercised here). -/
def pyIsSpace (c : Char) : Bool := c.isWhitespace

/-- Python `str.strip()` on a character list: drop leading and trailing
whitespace. -/
def pyStripList (l : List Char) : List Char :=
  ((l.dropWhile pyIsSpace).reverse.dropWhile pyIsSpace).reverse

/-- Python `s.strip()`. -/
def pyStrip (s : String) : String := (pyStripList s.toList).asString

/-- Python `s.lower()` (ASCII letters; non-ASCII case folding is not
exercised by any claim). -/
def pyLower (s : String) : String := (s.toList.map Char.toLower).asString

/-- Helper for `pySplit`: accumulate the current word (reversed) while
scanning. -/
def pySplitAux : List Char → List Char → List String
  | [], acc => if acc.isEmpty then [] else [acc.reverse.asString]
  | c :: rest, acc =>
    if pyIsSpace c then
      if acc.isEmpty then pySplitAux rest []
      else acc.reverse.asString :: pySplitAux rest []
    else pySplitAux rest (c :: acc)

/-- Python `s.split()` with no separator: split on runs of whitespace,
discarding empty fields. -/
def pySplit (s : String) : List String := pySplitAux s.toList []

/-- Python `" ".join(s.split())`: collapse internal whitespace (used by the
pydantic validators for free-text fields). -/
def pyCollapseWS (s : String) : String := String.intercalate " " (pySplit s)

/-- Numeric value of a list of ASCII digits. -/
def digitsVal (l : List Char) : Nat :=
  l.foldl (fun n c => 10 * n + (c.toNat - '0'.toNat)) 0

/-- Python `int(s)` on a decimal string: optional surrounding whitespace, an
optional sign, then at least one digit (`None` models a raised
`ValueError`). -/
def pyInt? (s : String) : Option Int :=
  match pyStripList s.toList with
  | '+' :: rest =>
    if rest ≠ [] ∧ rest.all Char.isDigit then some (digitsVal rest) else none
  | '-' :: rest =>
    if rest ≠ [] ∧ rest.all Char.isDigit then some (-(digitsVal rest : Int)) else none
  | l =>
    if l ≠ [] ∧ l.all Char.isDigit then some (digitsVal l) else none

/-- SQL `hay LIKE CONCAT(ASCII 37, needle, ASCII 37)` as used by the search
queries: substring containment (the search terms exercised contain no SQL
wildcard characters). -/
def containsSub (hay needle : String) : Bool :=
  decide (needle.toList <:+: hay.toList)

/-! ## Decimal numbers

`decimal.Decimal` values are embedded exactly: `mant` is the signed
coefficient and `scale` the number of fractional digits, so the numeric value
is `mant / 10 ^ scale` and `as_tuple().exponent = -scale`.  Comparisons are
the exact rational comparisons `Decimal` performs, written over `Int` by
cross-multiplication. -/

structure Dec where
  mant : Int
  scale : Nat
deriving DecidableEq, Repr

/-- Rational value of a decimal. -/
def Dec.val (d : Dec) : ℚ := (d.mant : ℚ) / 10 ^ d.scale

/-- Exact `Decimal` comparison `a < b`. -/
def Dec.blt (a b : Dec) : Bool := a.mant * 10 ^ b.scale < b.mant * 10 ^ a.scale

/-- Exact `Decimal` comparison `a ≤ b`. -/
def Dec.ble (a b : Dec) : Bool := a.mant * 10 ^ b.scale ≤ b.mant * 10 ^ a.scale

/-- The literal `Decimal("0")`. -/
def Dec.zero : Dec := ⟨0, 0⟩

/-- The literal `Decimal("1000000.00")` from the price validators. -/
def Dec.million : Dec := ⟨100000000, 2⟩

/-- Number of digits of the coefficient (pydantic counts the digit tuple of
the `Decimal`, which carries no leading zeros; `0` has one digit). -/
def numDigits (n : Nat) : Nat := Nat.log 10 n + 1

/-- Pydantic v1 digit count for a `Decimal` with non-positive exponent: when
the exponent reaches past the coefficient the fractional zeros count too. -/
def Dec.pydanticDigits (d : Dec) : Nat := max (numDigits d.mant.natAbs) d.scale

/-- Pydantic v1 decimal-places count: `-exponent` for non-positive
exponents. -/
def Dec.pydanticDecimals (d : Dec) : Nat := d.scale

/-! ## Data model: items (src/api_server/models/item.py)

`created_at` is a logical server-assigned timestamp; `updated_at` starts
`none` and is set by the database `onupdate` trigger whenever the row is
updated.  The ORM relationship to `User` is represented by the `user_id`
foreign key alone. -/

structure Item where
  id : Nat
  name : String
  description : Option String
  price : Dec
  user_id : Nat
  created_at : Nat
  updated_at : Option Nat
deriving DecidableEq, Repr

/-- Schema for creating a new item (`ItemCreate`).  Mirroring the source, it
carries only `name`, `description` and `price`: there is no `user_id` field,
the owner is always taken from the authenticated context. -/
structure ItemCreate where
  name : String
  description : Option String
  price : Dec
deriving DecidableEq, Repr

/-- Schema for partial item updates (`ItemUpdate`).  A `none` field was not
present in the request payload (pydantic `exclude_unset`); the degenerate
case of a field explicitly set to JSON `null` is identified with absence
here, as no claim distinguishes them. -/
structure ItemUpdate where
  name : Option String
  description : Option String
  price : Option Dec
deriving DecidableEq, Repr

/-- The items table. -/
abbrev ItemStore := List Item

namespace ItemRepository

/-- Errors raised by `ItemRepository` lookups: `ItemNotFoundError` and
`ItemAccessDeniedError` from item_repository.py. -/
inductive RepoError
  | notFound (item_id : Nat)
  | accessDenied (item_id user_id : Nat)
deriving DecidableEq, Repr

/-- `ItemRepository.get_by_id`: `SELECT ... WHERE id = item_id AND
user_id = user_id`, first row or `None`. -/
def get_by_id (store : ItemStore) (item_id user_id : Nat) : Option Item :=
  store.find? (fun it => it.id == item_id && it.user_id == user_id)

/-- `ItemRepository.get_by_id_or_raise`: first check existence irrespective
of owner, then ownership, then reload the row scoped to the owner. -/
def get_by_id_or_raise (store : ItemStore) (item_id user_id : Nat) :
    Except RepoError Item :=
  match store.find? (fun it => it.id == item_id) with
  | none => .error (.notFound item_id)
  | some existing_item =>
    if existing_item.user_id ≠ user_id then .error (.accessDenied item_id user_id)
    else
      match get_by_id store item_id user_id with
      | none => .error (.notFound item_id)
      | some it => .ok it

/-- `ItemRepository.create`: insert a new row whose `user_id` is the
argument (the id and creation timestamp are assigned by the database, passed
here explicitly). -/
def create (item_data : ItemCreate) (user_id newId now : Nat)
    (store : ItemStore) : Item × ItemStore :=
  let db_item : Item :=
    { id := newId
      name := item_data.name
      description := item_data.description
      price := item_data.price
      user_id := user_id
      created_at := now
      updated_at := none }
  (db_item, store ++ [db_item])

/-- Apply the `setattr` loop of `ItemRepository.update` for the fields
present in the payload; the database sets `updated_at` on commit. -/
def applyUpdate (it : Item) (item_data : ItemUpdate) (now : Nat) : Item :=
  { it with
    name := item_data.name.getD it.name
    description :=
      match item_data.description with
      | some d => some d
      | none => it.description
    price := item_data.price.getD it.price
    updated_at := some now }

/-- `ItemRepository.update`: fetch via `get_by_id_or_raise`, apply the
present fields, commit (replacing the row with that primary key). -/
def update (store : ItemStore) (item_id user_id : Nat)
    (item_data : ItemUpdate) (now : Nat) : Except RepoError (Item × ItemStore) :=
  match get_by_id_or_raise store item_id user_id with
  | .error e => .error e
  | .ok db_item =>
    let it := applyUpdate db_item item_data now
    .ok (it, store.map (fun x => if x.id == item_id then it else x))

/-- `ItemRepository.delete`: owner-scoped lookup; if absent, re-check bare
existence to distinguish access denial from a genuinely missing row. -/
def delete (store : ItemStore) (item_id user_id : Nat) :
    Except RepoError (Bool × ItemStore) :=
  match get_by_id store item_id user_id with
  | some _ =>
    .ok (true, store.eraseP (fun it => it.id == item_id && it.user_id == user_id))
  | none =>
    match store.find? (fun it => it.id == item_id) with
    | some _ => .error (.accessDenied item_id user_id)
    | none => .ok (false, store)

/-- `ItemRepository.count_for_user`: number of rows owned by the user. -/
def count_for_user (store : ItemStore) (user_id : Nat) : Nat :=
  (store.filter (fun it => it.user_id == user_id)).length

/-- Predicate of the search query: `LOWER(name) LIKE pattern OR
LOWER(description) LIKE pattern` with a lowercased substring pattern (a SQL
NULL description matches nothing). -/
def searchMatches (query : String) (it : Item) : Bool :=
  containsSub (pyLower it.name) (pyLower query) ||
    (match it.description with
     | some d => containsSub (pyLower d) (pyLower query)
     | none => false)

/-- `ItemRepository.search_for_user`: filter by owner and search pattern,
order by `created_at` descending, then paginate. -/
def search_for_user (store : ItemStore) (user_id : Nat) (query : String)
    (skip limit : Nat) : List Item :=
  ((((store.filter (fun it => it.user_id == user_id && searchMatches query it)).insertionSort
      (fun a b => b.created_at ≤ a.created_at)).drop skip).take limit)

/-- `ItemRepository.get_user_items_by_price_range`: optional inclusive
bounds, `ValueError` when `min_price > max_price`, order by price
ascending, paginate. -/
def get_user_items_by_price_range (store : ItemStore) (user_id : Nat)
    (min_price max_price : Option Dec) (skip limit : Nat) :
    Except String (List Item) :=
  match min_price, max_price with
  | some lo, some hi =>
    if hi.blt lo then .error "min_price cannot be greater than max_price"
    else
      .ok (priceQuery store user_id min_price max_price skip limit)
  | _, _ => .ok (priceQuery store user_id min_price max_price skip limit)
where
  /-- The filtered, price-sorted, paginated query shared by both branches. -/
  priceQuery (store : ItemStore) (user_id : Nat)
      (min_price max_price : Option Dec) (skip limit : Nat) : List Item :=
    ((((store.filter (fun it =>
          it.user_id == user_id &&
          (match min_price with | some lo => lo.ble it.price | none => true) &&
          (match max_price with | some hi => it.price.ble hi | none => true))).insertionSort
        (fun a b => a.price.ble b.price = true)).drop skip).take limit)

/-- `ItemRepository.get_all_for_user`: validate the sort allow-lists, sort by
the chosen column, paginate.  (For the `updated_at` column SQL NULL placement
is dialect-specific; absent timestamps sort as `0` here, which no claim
observes.) -/
def get_all_for_user (store : ItemStore) (user_id : Nat) (skip limit : Nat)
    (sort_by sort_order : String) : Except String (List Item) :=
  if sort_by ∉ ["created_at", "name", "price", "updated_at"] then
    .error "Invalid sort_by field"
  else if sort_order ∉ ["asc", "desc"] then
    .error "Invalid sort_order"
  else
    let key : Item → Item → Bool :=
      if sort_by = "name" then fun a b => a.name ≤ b.name
      else if sort_by = "price" then fun a b => a.price.ble b.price
      else if sort_by = "updated_at" then fun a b => a.updated_at.getD 0 ≤ b.updated_at.getD 0
      else fun a b => a.created_at ≤ b.created_at
    let sorted :=
      if sort_order = "desc" then
        (store.filter (fun it => it.user_id == user_id)).insertionSort
          (fun a b => key b a = true)
      else
        (store.filter (fun it => it.user_id == user_id)).insertionSort
          (fun a b => key a b = true)
    .ok ((sorted.drop skip).take limit)

end ItemRepository

/-! ## Item schemas: price validation (src/api_server/schemas/item_schemas.py) -/

namespace ItemSchemas

/-- The pydantic field constraints on `price`: `Field(gt=0, max_digits=10,
decimal_places=2)`, checked before any `@validator`. -/
def price_field_ok (v : Dec) : Bool :=
  Dec.zero.blt v && v.pydanticDigits ≤ 10 && v.pydanticDecimals ≤ 2

/-- The `validate_price` validator of `ItemCreate` / `ItemUpdate`: positive,
at most `Decimal("1000000.00")`, `as_tuple().exponent` not below `-2`. -/
def validate_price (v : Dec) : Except String Dec :=
  if v.ble Dec.zero then .error "Price must be greater than 0"
  else if Dec.million.blt v then .error "Price cannot exceed 1,000,000.00"
  else if 2 < v.scale then .error "Price cannot have more than 2 decimal places"
  else .ok v

/-- A price clears the schema (field constraints plus validator). -/
def price_schema_ok (v : Dec) : Bool :=
  price_field_ok v && (validate_price v).toBool

end ItemSchemas

/-! ## Item service (src/api_server/services/item_service.py) -/

namespace ItemService

/-- Service-level errors with the HTTP status hint each exception class
carries (`ItemValidationError` 400, `ItemNotFoundServiceError` 404,
`ItemAccessDeniedServiceError` 403, plus the 404 raised for a missing owner
and the generic 500 wrapper). -/
inductive SvcError
  | validation (msg : String)
  | notFound (item_id : Nat)
  | accessDenied (item_id user_id : Nat)
  | userNotFound (user_id : Nat)
  | internal (msg : String)
deriving DecidableEq, Repr

/-- The `status_code` attribute of each service exception. -/
def SvcError.status : SvcError → Nat
  | .validation _ => 400
  | .notFound _ => 404
  | .accessDenied _ _ => 403
  | .userNotFound _ => 404
  | .internal _ => 500

/-- `ItemService._validate_item_create_data` (the description check uses
Python truthiness, so an empty-string description is skipped). -/
def _validate_item_create_data (item_data : ItemCreate) : Option SvcError :=
  if pyStrip item_data.name = "" then
    some (.validation "Item name cannot be empty")
  else if item_data.price.ble Dec.zero then
    some (.validation "Item price must be greater than 0")
  else if Dec.million.blt item_data.price then
    some (.validation "Item price cannot exceed 1,000,000.00")
  else
    match item_data.description with
    | some d =>
      if d ≠ "" ∧ 1000 < d.length then
        some (.validation "Item description cannot exceed 1000 characters")
      else none
    | none => none

/-- `ItemService._validate_item_update_data`: at least one field must be
present, and each present field is checked individually. -/
def _validate_item_update_data (item_data : ItemUpdate) : Option SvcError :=
  if item_data.name = none ∧ item_data.description = none ∧ item_data.price = none then
    some (.validation "At least one field must be provided for update")
  else if (match item_data.name with
           | some n => pyStrip n == ""
           | none => false) then
    some (.validation "Item name cannot be empty")
  else if (match item_data.price with
           | some p => p.ble Dec.zero
           | none => false) then
    some (.validation "Item price must be greater than 0")
  else if (match item_data.price with
           | some p => Dec.million.blt p
           | none => false) then
    some (.validation "Item price cannot exceed 1,000,000.00")
  else if (match item_data.description with
           | some d => decide (1000 < d.length)
           | none => false) then
    some (.validation "Item description cannot exceed 1000 characters")
  else none

/-- `ItemService.update_item`: validate the payload, then delegate to the
repository (whose exceptions map to the 404/403 service errors). -/
def update_item (store : ItemStore) (item_id user_id : Nat)
    (item_data : ItemUpdate) (now : Nat) : Except SvcError (Item × ItemStore) :=
  match _validate_item_update_data item_data with
  | some e => .error e
  | none =>
    match ItemRepository.update store item_id user_id item_data now with
    | .error (.notFound i) => .error (.notFound i)
    | .error (.accessDenied i u) => .error (.accessDenied i u)
    | .ok r => .ok r

/-- `ItemService.get_item_by_id_or_raise`: repository lookup with exceptions
mapped to service errors. -/
def get_item_by_id_or_raise (store : ItemStore) (item_id user_id : Nat) :
    Except SvcError Item :=
  match ItemRepository.get_by_id_or_raise store item_id user_id with
  | .error (.notFound i) => .error (.notFound i)
  | .error (.accessDenied i u) => .error (.accessDenied i u)
  | .ok it => .ok it

/-- `ItemService.delete_item`: delegate to the repository; only the
access-denied exception is mapped, `False` flows through. -/
def delete_item (store : ItemStore) (item_id user_id : Nat) :
    Except SvcError (Bool × ItemStore) :=
  match ItemRepository.delete store item_id user_id with
  | .error (.notFound i) => .error (.notFound i)
  | .error (.accessDenied i u) => .error (.accessDenied i u)
  | .ok r => .ok r

/-- Sort-field enum of the list request schema (`ItemSortField`). -/
inductive ItemSortField
  | name
  | price
  | created_at
  | updated_at
deriving DecidableEq, Repr

/-- The string `.value` of a sort field. -/
def ItemSortField.value : ItemSortField → String
  | .name => "name"
  | .price => "price"
  | .created_at => "created_at"
  | .updated_at => "updated_at"

/-- Sort-order enum (`SortOrder`). -/
inductive SortOrder
  | asc
  | desc
deriving DecidableEq, Repr

/-- The string `.value` of a sort order. -/
def SortOrder.value : SortOrder → String
  | .asc => "asc"
  | .desc => "desc"

/-- Query parameters of the list endpoint (`ItemListRequest`). -/
structure ItemListRequest where
  page : Nat
  page_size : Nat
  sort_by : ItemSortField
  sort_order : SortOrder
  search : Option String
  min_price : Option Dec
  max_price : Option Dec
deriving DecidableEq, Repr

/-- Paginated list envelope (`ItemListResponse`); the per-item DTO carries
the same fields as the row, so rows stand in for `ItemResponse` values. -/
structure ItemListResponse where
  items : List Item
  total : Nat
  page : Nat
  page_size : Nat
  total_pages : Nat
deriving DecidableEq, Repr

/-- `ItemService._validate_list_request`. -/
def _validate_list_request (request : ItemListRequest) : Option SvcError :=
  if request.page < 1 then
    some (.validation "Page number must be at least 1")
  else if request.page_size < 1 ∨ 100 < request.page_size then
    some (.validation "Page size must be between 1 and 100")
  else if (match request.min_price with
           | some m => m.blt Dec.zero
           | none => false) then
    some (.validation "Minimum price cannot be negative")
  else if (match request.max_price with
           | some m => m.ble Dec.zero
           | none => false) then
    some (.validation "Maximum price must be greater than 0")
  else if (match request.min_price, request.max_price with
           | some lo, some hi => hi.ble lo
           | _, _ => false) then
    some (.validation "Minimum price must be less than maximum price")
  else if (match request.search with
           | some s => (pyStrip s).length == 0
           | none => false) then
    some (.validation "Search query cannot be empty")
  else none

/-- The `float(x) if x else None` conversion applied to each price bound
before it reaches the repository: a zero bound (falsy `Decimal`) is dropped.
The lossiness of `float` itself is not modelled; no claim depends on it. -/
def effBound (b : Option Dec) : Option Dec :=
  match b with
  | some m => if m.mant = 0 then none else some m
  | none => none

/-- `ItemService.get_items_for_user`: validate, compute `skip`, dispatch on
the filter mode (`if request.search:` is a truthiness test, so an empty
search string falls through to the price branch), then report the exact
owner-scoped row count as `total` regardless of the filter. -/
def get_items_for_user (store : ItemStore) (user_id : Nat)
    (request : ItemListRequest) : Except SvcError ItemListResponse :=
  match _validate_list_request request with
  | some e => .error e
  | none =>
    let skip := (request.page - 1) * request.page_size
    let fetched : Except SvcError (List Item) :=
      if (match request.search with
          | some q => q != ""
          | none => false) then
        .ok (ItemRepository.search_for_user store user_id
          (request.search.getD "") skip request.page_size)
      else if request.min_price.isSome ∨ request.max_price.isSome then
        match ItemRepository.get_user_items_by_price_range store user_id
            (effBound request.min_price) (effBound request.max_price)
            skip request.page_size with
        | .error msg => .error (.validation msg)
        | .ok items => .ok items
      else
        match ItemRepository.get_all_for_user store user_id skip
            request.page_size request.sort_by.value request.sort_order.value with
        | .error msg => .error (.validation msg)
        | .ok items => .ok items
    match fetched with
    | .error e => .error e
    | .ok items =>
      let total_count := ItemRepository.count_for_user store user_id
      .ok { items := items
            total := total_count
            page := request.page
            page_size := request.page_size
            total_pages := (total_count + request.page_size - 1) / request.page_size }

/-- `ItemService.search_items`: validate the query and pagination, fetch one
page, then derive `total` from whether the page came back full instead of
issuing a count query. -/
def search_items (store : ItemStore) (user_id : Nat) (query : String)
    (page page_size : Nat) : Except SvcError ItemListResponse :=
  if query = "" ∨ pyStrip query = "" then
    .error (.validation "Search query cannot be empty")
  else if page < 1 then
    .error (.validation "Page number must be at least 1")
  else if page_size < 1 ∨ 100 < page_size then
    .error (.validation "Page size must be between 1 and 100")
  else
    let skip := (page - 1) * page_size
    let items := ItemRepository.search_for_user store user_id (pyStrip query)
      skip page_size
    let total_count :=
      if items.length = page_size then page * page_size
      else (page - 1) * page_size + items.length
    .ok { items := items
          total := total_count
          page := page
          page_size := page_size
          total_pages := (total_count + page_size - 1) / page_size }

end ItemService

/-! ## Post location validation (src/api_server/schemas/post_schemas.py and
src/api_server/services/post_service.py) -/

namespace PostSchemas

/-- One character of the `[0-9a-z]` class. -/
def geohashChar (c : Char) : Bool := c.isDigit || ('a' ≤ c && c ≤ 'z')

/-- The regex `^[0-9a-z]+$`: nonempty and every character in the class
(`re.match` is applied to an already stripped string, so the
trailing-newline allowance of `$` cannot fire). -/
def geohashPattern (s : String) : Bool :=
  s.toList ≠ [] && s.toList.all geohashChar

/-- The pydantic field constraint on `location`: `Field(max_length=12)`,
checked on the raw value before the validator runs. -/
def location_field_ok (v : Option String) : Bool :=
  match v with
  | some s => s.length ≤ 12
  | none => true

/-- The `validate_location` validator of `PostCreate`: strip, normalize the
empty string to `None`, match `^[0-9a-z]+$` against the LOWERCASED copy,
check the trimmed length, and return the trimmed original (not the
lowercased copy). -/
def validate_location (v : Option String) : Except String (Option String) :=
  match v with
  | none => .ok none
  | some s0 =>
    let v := pyStrip s0
    if v = "" then .ok none
    else if ¬ geohashPattern (pyLower v) then
      .error "Location must be a valid GEOHASH (alphanumeric characters only)"
    else if v.length < 1 ∨ 12 < v.length then
      .error "GEOHASH must be between 1 and 12 characters"
    else .ok (some v)

/-- Full schema acceptance for `location`: field constraint then
validator. -/
def location_schema (v : Option String) : Except String (Option String) :=
  if location_field_ok v then validate_location v
  else .error "ensure this value has at most 12 characters"

/-- `PostService._validate_geohash`: the check-only service validator run on
the already schema-validated value (`none` means it passed). -/
def _validate_geohash (geohash : String) : Option String :=
  if geohash = "" ∨ pyStrip geohash = "" then some "GEOHASH cannot be empty"
  else
    let g := pyStrip geohash
    if ¬ geohashPattern (pyLower g) then
      some "GEOHASH must contain only alphanumeric characters"
    else if g.length < 1 ∨ 12 < g.length then
      some "GEOHASH must be between 1 and 12 characters"
    else none

end PostSchemas

/-! ## Users (src/api_server/models/user.py,
src/api_server/repositories/user_repository.py,
src/api_server/services/user_service.py) -/

structure User where
  id : Nat
  line_user_id : String
  display_name : String
  picture_url : Option String
  email : Option String
deriving DecidableEq, Repr

/-- `UserCreate` projection. -/
structure UserCreate where
  line_user_id : String
  display_name : String
  picture_url : Option String
  email : Option String
deriving DecidableEq, Repr

/-- LINE profile payload (`LineUserProfile`) as returned by the provider's
profile endpoint. -/
structure LineUserProfile where
  userId : String
  displayName : String
  pictureUrl : Option String
  statusMessage : Option String
deriving DecidableEq, Repr

/-- The users table. -/
abbrev UserStore := List User

namespace UserRepository

/-- `UserAlreadyExistsError` (the conflict) versus the generic
`UserRepositoryError`. -/
inductive RepoError
  | alreadyExists (line_user_id : String)
  | repoError (msg : String)
deriving DecidableEq, Repr

/-- `UserRepository.get_by_line_user_id`. -/
def get_by_line_user_id (store : UserStore) (line_user_id : String) :
    Option User :=
  store.find? (fun u => u.line_user_id == line_user_id)

/-- `UserRepository.get_by_id`. -/
def get_by_id (store : UserStore) (user_id : Nat) : Option User :=
  store.find? (fun u => u.id == user_id)

/-- `UserRepository.create`: look up the external id first and raise the
conflict if it is taken, otherwise insert.  (The `IntegrityError` branch
that catches a unique-constraint violation from a concurrent insert also
maps to `UserAlreadyExistsError`; in this sequential model the pre-check
already covers it.) -/
def create (store : UserStore) (user_data : UserCreate) (newId : Nat) :
    Except RepoError (User × UserStore) :=
  match get_by_line_user_id store user_data.line_user_id with
  | some _ => .error (.alreadyExists user_data.line_user_id)
  | none =>
    let user : User :=
      { id := newId
        line_user_id := user_data.line_user_id
        display_name := user_data.display_name
        picture_url := user_data.picture_url
        email := user_data.email }
    .ok (user, store ++ [user])

end UserRepository

namespace UserService

/-- `UserServiceError` with its `status_code`. -/
structure SvcError where
  message : String
  status_code : Nat
deriving DecidableEq, Repr

/-- `UserService.get_user_by_line_id` (the `UserResponse` projection carries
the same fields as the row). -/
def get_user_by_line_id (store : UserStore) (line_user_id : String) :
    Option User :=
  UserRepository.get_by_line_user_id store line_user_id

/-- `UserService.create_user_from_line_profile`: re-check for an existing
user, build the `UserCreate` with `email=None`, insert; on a conflict raced
in between, fall back to the lookup and only then report 409. -/
def create_user_from_line_profile (store : UserStore)
    (profile : LineUserProfile) (newId : Nat) :
    Except SvcError (User × UserStore) :=
  match get_user_by_line_id store profile.userId with
  | some existing_user => .ok (existing_user, store)
  | none =>
    let user_data : UserCreate :=
      { line_user_id := profile.userId
        display_name := profile.displayName
        picture_url := profile.pictureUrl
        email := none }
    match UserRepository.create store user_data newId with
    | .ok r => .ok r
    | .error (.alreadyExists _) =>
      match get_user_by_line_id store profile.userId with
      | some existing_user => .ok (existing_user, store)
      | none => .error ⟨"User creation failed", 409⟩
    | .error (.repoError m) => .error ⟨m, 500⟩

/-- `UserService.get_or_create_user_from_line_profile`: lookup, then create
when absent. -/
def get_or_create_user_from_line_profile (store : UserStore)
    (profile : LineUserProfile) (newId : Nat) :
    Except SvcError (User × UserStore) :=
  match get_user_by_line_id store profile.userId with
  | some existing_user => .ok (existing_user, store)
  | none => create_user_from_line_profile store profile newId

end UserService

/-! ## Login endpoint (src/api_server/routers/auth.py) -/

namespace AuthRouter

/-- A `LineAuthError` with its status hint (401 provider rejection, 503
unreachable, 500 unexpected). -/
structure LineAuthError where
  message : String
  status_code : Nat
deriving DecidableEq, Repr

/-- Outcome of `POST /api/auth/line/callback`: either the token response or
an `HTTPException` body. -/
inductive LoginResult
  | success (jwt_user : User) (store : UserStore)
  | httpError (status_code : Nat) (detail : String)
deriving DecidableEq, Repr

/-- `line_login_callback` after the LINE steps: the router builds
`UserCreate(line_user_id=profile.userId, display_name=profile.displayName,
picture_url=profile.pictureUrl, email=None)` and then invokes
`user_service.create_or_get_user(user_data)` — but `UserService` defines no
method named `create_or_get_user` (its provisioning methods are
`create_user_from_line_profile` and `get_or_create_user_from_line_profile`),
so Python raises `AttributeError`, which the route's final
`except Exception` handler converts to a 500 response.  The user store is
never read or written on this path. -/
def line_login_callback (lineAuth : Except LineAuthError LineUserProfile)
    (store : UserStore) : LoginResult :=
  match lineAuth with
  | .error e => .httpError e.status_code ("LINE authentication failed: " ++ e.message)
  | .ok _profile =>
    .httpError 500
      "Internal server error: UserService object has no attribute create_or_get_user"

end AuthRouter

/-! ## Auth service (src/api_server/services/auth_service.py)

JWT cryptography is abstracted in the standard way: a structurally decoded
token records the payload together with the key and algorithm that produced
its signature, and `jose.jwt.decode` succeeds exactly when they match the
verifier's configuration.  `jose` checks the signature before validating
claims, so a tampered token reports "invalid" even when it is also stale. -/

namespace AuthService

/-- JWT payload structure (`JWTPayload`). -/
structure JWTPayload where
  sub : String
  line_user_id : String
  exp : Int
  iat : Int
deriving DecidableEq, Repr

/-- A structurally well-formed JWT: the payload plus the key and algorithm
its signature was produced with. -/
structure SignedToken where
  payload : JWTPayload
  key : String
  alg : String
deriving DecidableEq, Repr

/-- JWT-side authentication failures, one per `raise` site of
auth_service.py. -/
inductive JWTFailure
  | expired
  | invalidToken
  | missingHeader
  | invalidScheme
  | invalidHeaderFormat
  | invalidUserId
deriving DecidableEq, Repr

/-- Every one of these failures is raised as a `JWTError` with
`status_code=401`. -/
def JWTFailure.status : JWTFailure → Nat
  | .expired => 401
  | .invalidToken => 401
  | .missingHeader => 401
  | .invalidScheme => 401
  | .invalidHeaderFormat => 401
  | .invalidUserId => 401

/-- The human message of each failure. -/
def JWTFailure.message : JWTFailure → String
  | .expired => "Token has expired"
  | .invalidToken => "Invalid token"
  | .missingHeader => "Authorization header is missing"
  | .invalidScheme => "Invalid authorization scheme. Expected Bearer"
  | .invalidHeaderFormat => "Invalid authorization header format"
  | .invalidUserId => "Invalid user ID in token"

/-- JWT verifier configuration (`jwt_secret`, `jwt_algorithm` from
settings). -/
structure AuthConfig where
  jwt_secret : String
  jwt_algorithm : String
deriving DecidableEq, Repr

/-- `AuthService.verify_jwt_token` on a structurally decoded token:
signature (key and algorithm) first, then expiry against the clock. -/
def verify_jwt_token (cfg : AuthConfig) (now : Int) (tok : SignedToken) :
    Except JWTFailure JWTPayload :=
  if tok.key ≠ cfg.jwt_secret ∨ tok.alg ≠ cfg.jwt_algorithm then
    .error .invalidToken
  else if tok.payload.exp < now then .error .expired
  else .ok tok.payload

/-- `AuthService.extract_token_from_header`: reject a missing header, split
on whitespace, require exactly a scheme and a token, require the scheme to
be `bearer` case-insensitively. -/
def extract_token_from_header (authorization : Option String) :
    Except JWTFailure String :=
  match authorization with
  | none => .error .missingHeader
  | some a =>
    match pySplit a with
    | [scheme, token] =>
      if pyLower scheme ≠ "bearer" then .error .invalidScheme else .ok token
    | _ => .error .invalidHeaderFormat

/-- `AuthService.get_current_user_id`: extract the bearer token, verify it
(`decode` maps the token string to its structural decoding; a string that is
not a well-formed JWT decodes to `none` and is reported as invalid), then
parse the subject with `int(...)`. -/
def get_current_user_id (cfg : AuthConfig) (now : Int)
    (decode : String → Option SignedToken) (authorization : Option String) :
    Except JWTFailure Int :=
  match extract_token_from_header authorization with
  | .error e => .error e
  | .ok token =>
    match decode token with
    | none => .error .invalidToken
    | some tok =>
      match verify_jwt_token cfg now tok with
      | .error e => .error e
      | .ok payload =>
        match pyInt? payload.sub with
        | some user_id => .ok user_id
        | none => .error .invalidUserId

end AuthService

/-! ## Helper lemmas on first-match queries -/

/-- Primary-key uniqueness of the items table: no two rows share an id. -/
def itemIdsNodup (store : ItemStore) : Prop := (store.map Item.id).Nodup

instance (store : ItemStore) : Decidable (itemIdsNodup store) := by
  unfold itemIdsNodup
  infer_instance

/-- Primary uniqueness target of C7: no two rows share a `line_user_id`. -/
def lineIdsNodup (store : UserStore) : Prop :=
  (store.map User.line_user_id).Nodup

instance (store : UserStore) : Decidable (lineIdsNodup store) := by
  unfold lineIdsNodup
  infer_instance

/-! ## Bridges between the Decimal comparisons and rational values -/

/-- The price-range predicate of the repository query, at the effective
bounds the service passes. -/
def ItemService.priceMatches (request : ItemService.ItemListRequest)
    (it : Item) : Bool :=
  (match ItemService.effBound request.min_price with
   | some lo => lo.ble it.price
   | none => true) &&
  (match ItemService.effBound request.max_price with
   | some hi => it.price.ble hi
   | none => true)

/-- The effective row filter of a filtered `get_items_for_user` call: the
search predicate when a nonempty search term is present (Python truthiness),
otherwise the price-range predicate after the zero-dropping `float(x) if x
else None` conversion of each bound. -/
def ItemService.rowMatches (request : ItemService.ItemListRequest)
    (it : Item) : Bool :=
  match request.search with
  | some q =>
    if q ≠ "" then ItemRepository.searchMatches q it
    else ItemService.priceMatches request it
  | none => ItemService.priceMatches request it

/-! ## Theorems -/

theorem Dec.blt_iff_val (a b : Dec) : a.blt b = true ↔ a.val < b.val := by
  have ha : (0 : ℚ) < 10 ^ a.scale := by positivity
  have hb : (0 : ℚ) < 10 ^ b.scale := by positivity
  rw [Dec.blt, Dec.val, Dec.val, div_lt_div_iff ha hb, decide_eq_true_eq]
  constructor
  · intro h
    exact_mod_cast h
  · intro h
    exact_mod_cast h

theorem Dec.ble_iff_val (a b : Dec) : a.ble b = true ↔ a.val ≤ b.val := by
  have ha : (0 : ℚ) < 10 ^ a.scale := by positivity
  have hb : (0 : ℚ) < 10 ^ b.scale := by positivity
  rw [Dec.ble, Dec.val, Dec.val, div_le_div_iff ha hb, decide_eq_true_eq]
  constructor
  · intro h
    exact_mod_cast h
  · intro h
    exact_mod_cast h

theorem Dec.million_val : Dec.million.val = 1000000 := by
  rw [Dec.val, Dec.million]
  norm_num

theorem Dec.zero_val : Dec.zero.val = 0 := by
  rw [Dec.val, Dec.zero]
  norm_num

theorem find?_eq_none_mono {α} {p q : α → Bool} {l : List α}
    (h : ∀ x, q x = true → p x = true) (hl : l.find? p = none) :
    l.find? q = none := by
  rw [List.find?_eq_none] at hl ⊢
  exact fun x hx hq => hl x hx (h x hq)

theorem find?_strengthen {α} {p q : α → Bool} {l : List α} {a : α}
    (hp : l.find? p = some a) (hq : q a = true)
    (h : ∀ x, q x = true → p x = true) : l.find? q = some a := by
  induction l with
  | nil => simp at hp
  | cons b l ih =>
    by_cases hb : p b = true
    · rw [List.find?_cons_of_pos _ hb] at hp
      obtain rfl : b = a := by simpa using hp
      exact List.find?_cons_of_pos _ hq
    · rw [List.find?_cons_of_neg _ (by simpa using hb)] at hp
      have hqb : ¬ q b = true := fun hqb => hb (h b hqb)
      rw [List.find?_cons_of_neg _ (by simpa using hqb)]
      exact ih hp

theorem eq_of_itemIdsNodup {store : ItemStore} (h : itemIdsNodup store)
    {a b : Item} (ha : a ∈ store) (hb : b ∈ store) (hid : a.id = b.id) :
    a = b :=
  List.inj_on_of_nodup_map h ha hb hid

/-- C1, auxiliary: an id-and-owner match is in particular an id match. -/
theorem owner_pred_imp_id_pred (item_id user_id : Nat) :
    ∀ it : Item, (it.id == item_id && it.user_id == user_id) = true →
      (it.id == item_id) = true := by
  intro it h
  simpa using (by simpa using h : it.id = item_id ∧ it.user_id = user_id).1

/-- C1.  For every point lookup with an owner check (`get_by_id_or_raise`,
and `delete`), the outcome is decided by first checking bare existence of
the id and then ownership: a missing id gives the not-found outcome
(`ItemNotFoundServiceError`, status 404, respectively `False` from
`delete`); an existing id owned by another user gives the access-denied
outcome (`ItemAccessDeniedServiceError`, status 403) from both; an existing
id owned by the caller succeeds.  The three cases are exhaustive over the
first id match, so the two error outcomes are never confused. -/
theorem item_lookup_distinguishes_missing_from_foreign :
    ∀ (store : ItemStore) (item_id user_id : Nat), itemIdsNodup store →
      (store.find? (fun it => it.id == item_id) = none →
        ItemService.get_item_by_id_or_raise store item_id user_id =
          .error (.notFound item_id) ∧
        (ItemService.SvcError.notFound item_id).status = 404 ∧
        ItemService.delete_item store item_id user_id = .ok (false, store)) ∧
      (∀ it, store.find? (fun it => it.id == item_id) = some it →
        it.user_id ≠ user_id →
        ItemService.get_item_by_id_or_raise store item_id user_id =
          .error (.accessDenied item_id user_id) ∧
        (ItemService.SvcError.accessDenied item_id user_id).status = 403 ∧
        ItemService.delete_item store item_id user_id =
          .error (.accessDenied item_id user_id)) ∧
      (∀ it, store.find? (fun it => it.id == item_id) = some it →
        it.user_id = user_id →
        ItemService.get_item_by_id_or_raise store item_id user_id = .ok it ∧
        ItemService.delete_item store item_id user_id =
          .ok (true, store.eraseP
            (fun x => x.id == item_id && x.user_id == user_id))) := by
  intro store item_id user_id hnodup
  refine ⟨?_, ?_, ?_⟩
  · intro hnone
    have howner :
        store.find? (fun it => it.id == item_id && it.user_id == user_id) = none :=
      find?_eq_none_mono (owner_pred_imp_id_pred item_id user_id) hnone
    refine ⟨?_, rfl, ?_⟩
    · simp [ItemService.get_item_by_id_or_raise, ItemRepository.get_by_id_or_raise,
        hnone]
    · simp [ItemService.delete_item, ItemRepository.delete,
        ItemRepository.get_by_id, howner, hnone]
  · intro it hit hmismatch
    have hmem : it ∈ store := List.mem_of_find?_eq_some hit
    have hid : it.id = item_id := by
      have := List.find?_some hit
      simpa using this
    have howner :
        store.find? (fun x => x.id == item_id && x.user_id == user_id) = none := by
      rw [List.find?_eq_none]
      intro x hx hpx
      have hxid : x.id = item_id := by simpa using (owner_pred_imp_id_pred _ _ x hpx)
      have hxu : x.user_id = user_id :=
        (by simpa using hpx : x.id = item_id ∧ x.user_id = user_id).2
      have : x = it := eq_of_itemIdsNodup hnodup hx hmem (hxid.trans hid.symm)
      exact hmismatch (this ▸ hxu)
    refine ⟨?_, rfl, ?_⟩
    · simp [ItemService.get_item_by_id_or_raise, ItemRepository.get_by_id_or_raise,
        hit, hmismatch]
    · simp [ItemService.delete_item, ItemRepository.delete,
        ItemRepository.get_by_id, howner, hit]
  · intro it hit hown
    have hid : it.id = item_id := by
      have := List.find?_some hit
      simpa using this
    have howner :
        store.find? (fun x => x.id == item_id && x.user_id == user_id) = some it := by
      refine find?_strengthen hit ?_ (owner_pred_imp_id_pred item_id user_id)
      simp [hid, hown]
    constructor
    · simp [ItemService.get_item_by_id_or_raise, ItemRepository.get_by_id_or_raise,
        hit, hown, ItemRepository.get_by_id, howner]
    · simp [ItemService.delete_item, ItemRepository.delete,
        ItemRepository.get_by_id, howner]

/-- Witness for C1: a concrete two-user store exercising all three cases. -/
theorem item_lookup_distinguishes_missing_from_foreign_witness :
    (ItemService.get_item_by_id_or_raise
        [⟨1, "a", none, ⟨100, 2⟩, 1, 0, none⟩, ⟨2, "b", none, ⟨200, 2⟩, 2, 0, none⟩]
        3 1 = .error (.notFound 3)) ∧
    (ItemService.delete_item
        [⟨1, "a", none, ⟨100, 2⟩, 1, 0, none⟩, ⟨2, "b", none, ⟨200, 2⟩, 2, 0, none⟩]
        2 1 = .error (.accessDenied 2 1)) ∧
    (ItemService.get_item_by_id_or_raise
        [⟨1, "a", none, ⟨100, 2⟩, 1, 0, none⟩, ⟨2, "b", none, ⟨200, 2⟩, 2, 0, none⟩]
        1 1 = .ok ⟨1, "a", none, ⟨100, 2⟩, 1, 0, none⟩) := by
  have h := item_lookup_distinguishes_missing_from_foreign
    [⟨1, "a", none, ⟨100, 2⟩, 1, 0, none⟩, ⟨2, "b", none, ⟨200, 2⟩, 2, 0, none⟩]
  refine ⟨(h 3 1 (by decide) |>.1 (by rfl)).1, ?_, ?_⟩
  · exact ((h 2 1 (by decide)).2.1 ⟨2, "b", none, ⟨200, 2⟩, 2, 0, none⟩ (by rfl)
      (by decide)).2.2
  · exact ((h 1 1 (by decide)).2.2 ⟨1, "a", none, ⟨100, 2⟩, 1, 0, none⟩ (by rfl)
      (by decide)).1

/-- C2.  A created item's owner is always the `user_id` argument supplied by
the authenticated context: the stored row records exactly that id, the row
appended to the table is that row, and no content of the creation payload
(which has no `user_id` field) can change the stored owner. -/
theorem created_item_owner_is_caller :
    ∀ (item_data : ItemCreate) (user_id newId now : Nat) (store : ItemStore),
      ((ItemRepository.create item_data user_id newId now store).1).user_id
          = user_id ∧
      (ItemRepository.create item_data user_id newId now store).2
          = store ++ [(ItemRepository.create item_data user_id newId now store).1] ∧
      ∀ other_data : ItemCreate,
        ((ItemRepository.create other_data user_id newId now store).1).user_id
          = ((ItemRepository.create item_data user_id newId now store).1).user_id :=
  fun _ _ _ _ _ => ⟨rfl, rfl, fun _ => rfl⟩

/-- C3.  For every login attempt whose LINE verification and profile fetch
succeed, the route never reaches user provisioning: `line_login_callback`
invokes `user_service.create_or_get_user`, a method `UserService` does not
define, so the request ends in the catch-all 500 handler instead of the
claimed lookup-or-create followed by a signed token.  The provisioning
method the service does define (`get_or_create_user_from_line_profile`,
which the integration tests patch) implements exactly the claimed mapping:
look up by the external LINE id and, when absent, create a user with the
external id, display name and picture URL copied from the profile and the
email left null.  Instantiated at a concrete profile as the failing
input. -/
theorem line_callback_crashes_despite_service_mapping :
    (∀ (profile : LineUserProfile) (store : UserStore) (newId : Nat),
      AuthRouter.line_login_callback (.ok profile) store =
        .httpError 500
          "Internal server error: UserService object has no attribute create_or_get_user" ∧
      UserService.get_or_create_user_from_line_profile store profile newId =
        (match UserService.get_user_by_line_id store profile.userId with
         | some existing_user => .ok (existing_user, store)
         | none =>
           .ok (⟨newId, profile.userId, profile.displayName, profile.pictureUrl, none⟩,
             store ++ [⟨newId, profile.userId, profile.displayName, profile.pictureUrl, none⟩]))) ∧
    AuthRouter.line_login_callback
      (.ok ⟨"U1234", "Alice", some "https://p.example/1.jpg", none⟩) [] =
      .httpError 500
        "Internal server error: UserService object has no attribute create_or_get_user" ∧
    UserService.get_or_create_user_from_line_profile []
      ⟨"U1234", "Alice", some "https://p.example/1.jpg", none⟩ 1 =
      .ok (⟨1, "U1234", "Alice", some "https://p.example/1.jpg", none⟩,
        [⟨1, "U1234", "Alice", some "https://p.example/1.jpg", none⟩]) := by
  refine ⟨fun profile store newId => ⟨rfl, ?_⟩, rfl, rfl⟩
  cases h : UserService.get_user_by_line_id store profile.userId with
  | some u =>
    simp only [UserService.get_or_create_user_from_line_profile, h]
  | none =>
    simp only [UserService.get_or_create_user_from_line_profile,
      UserService.create_user_from_line_profile, h,
      UserRepository.create]
    have h2 : UserRepository.get_by_line_user_id store profile.userId = none := h
    simp only [h2]

/-- C7.  Creating a user whose `line_user_id` is already present fails with
the dedicated conflict error (`UserAlreadyExistsError`) — never the generic
repository error — and, being an error, commits nothing, so the store is
unchanged.  A successful create happened on a fresh external id, appends
exactly one row carrying it, and therefore preserves the invariant that no
two stored users share a `line_user_id`. -/
theorem duplicate_line_user_id_is_conflict :
    ∀ (store : UserStore) (user_data : UserCreate) (newId : Nat),
      ((∃ u ∈ store, u.line_user_id = user_data.line_user_id) →
        UserRepository.create store user_data newId =
          .error (.alreadyExists user_data.line_user_id)) ∧
      (∀ user store2,
        UserRepository.create store user_data newId = .ok (user, store2) →
        user.line_user_id = user_data.line_user_id ∧
        store2 = store ++ [user] ∧
        (∀ u ∈ store, u.line_user_id ≠ user_data.line_user_id) ∧
        (lineIdsNodup store → lineIdsNodup store2)) := by
  intro store user_data newId
  constructor
  · rintro ⟨u, hu, hid⟩
    cases h : UserRepository.get_by_line_user_id store user_data.line_user_id with
    | none =>
      rw [UserRepository.get_by_line_user_id, List.find?_eq_none] at h
      exact absurd (by simpa using hid) (h u hu)
    | some v =>
      simp [UserRepository.create, h]
  · intro user store2 hok
    cases h : UserRepository.get_by_line_user_id store user_data.line_user_id with
    | some v => simp [UserRepository.create, h] at hok
    | none =>
      simp only [UserRepository.create, h, Except.ok.injEq, Prod.mk.injEq] at hok
      obtain ⟨h1, h2⟩ := hok
      subst h1
      subst h2
      rw [UserRepository.get_by_line_user_id, List.find?_eq_none] at h
      have hfresh : ∀ u ∈ store, u.line_user_id ≠ user_data.line_user_id := by
        intro u hu heq
        exact h u hu (by simpa using heq)
      refine ⟨rfl, rfl, hfresh, ?_⟩
      intro hnodup
      rw [lineIdsNodup, List.map_append, List.nodup_append]
      refine ⟨hnodup, List.nodup_singleton _, ?_⟩
      intro a ha hb
      obtain ⟨u, hu, rfl⟩ := List.mem_map.mp ha
      simp at hb
      exact hfresh u hu hb

/-- Witness for C7: a duplicate attempt conflicts, a fresh insert keeps the
external ids pairwise distinct. -/
theorem duplicate_line_user_id_is_conflict_witness :
    (UserRepository.create [⟨1, "U1", "Alice", none, none⟩]
        ⟨"U1", "Bob", none, none⟩ 2 = .error (.alreadyExists "U1")) ∧
    lineIdsNodup ([⟨1, "U1", "Alice", none, none⟩] ++
      [⟨2, "U2", "Bob", none, none⟩]) := by
  constructor
  · exact (duplicate_line_user_id_is_conflict [⟨1, "U1", "Alice", none, none⟩]
      ⟨"U1", "Bob", none, none⟩ 2).1 ⟨⟨1, "U1", "Alice", none, none⟩, by simp, rfl⟩
  · exact ((duplicate_line_user_id_is_conflict [⟨1, "U1", "Alice", none, none⟩]
      ⟨"U2", "Bob", none, none⟩ 2).2 ⟨2, "U2", "Bob", none, none⟩
      ([⟨1, "U1", "Alice", none, none⟩] ++ [⟨2, "U2", "Bob", none, none⟩])
      (by rfl)).2.2.2 (by decide)

/-- C6.  JWT verification outcomes: a correctly signed token whose expiry
has passed fails with the dedicated expired error; a token whose signature
does not verify against the configured key and algorithm fails with the
dedicated invalid error; the two errors are distinct values and all
authentication failures carry status 401.  In `get_current_user_id`, a
structurally valid, verified token whose subject is not integer-parseable is
rejected 401, while an absent header or a non-Bearer scheme is rejected 401
uniformly in the verifier configuration and decoder — i.e. before any
signature check. -/
theorem jwt_failures_are_distinct_401s :
    ∀ (cfg : AuthService.AuthConfig) (now : Int)
      (decode : String → Option AuthService.SignedToken),
      (∀ tok : AuthService.SignedToken,
        tok.key = cfg.jwt_secret → tok.alg = cfg.jwt_algorithm →
        tok.payload.exp < now →
        AuthService.verify_jwt_token cfg now tok = .error .expired) ∧
      (∀ tok : AuthService.SignedToken,
        tok.key ≠ cfg.jwt_secret ∨ tok.alg ≠ cfg.jwt_algorithm →
        AuthService.verify_jwt_token cfg now tok = .error .invalidToken) ∧
      (AuthService.JWTFailure.expired ≠ AuthService.JWTFailure.invalidToken ∧
        AuthService.JWTFailure.expired.message ≠
          AuthService.JWTFailure.invalidToken.message) ∧
      (∀ f : AuthService.JWTFailure, f.status = 401) ∧
      (∀ (hdr sch t : String) (tok : AuthService.SignedToken),
        pySplit hdr = [sch, t] → pyLower sch = "bearer" →
        decode t = some tok →
        tok.key = cfg.jwt_secret → tok.alg = cfg.jwt_algorithm →
        ¬ tok.payload.exp < now → pyInt? tok.payload.sub = none →
        AuthService.get_current_user_id cfg now decode (some hdr) =
          .error .invalidUserId) ∧
      (AuthService.get_current_user_id cfg now decode none =
        .error .missingHeader) ∧
      (∀ (hdr sch t : String), pySplit hdr = [sch, t] → pyLower sch ≠ "bearer" →
        AuthService.get_current_user_id cfg now decode (some hdr) =
          .error .invalidScheme) := by
  intro cfg now decode
  refine ⟨?_, ?_, ⟨by simp, by simp [AuthService.JWTFailure.message]⟩,
    ?_, ?_, rfl, ?_⟩
  · intro tok hkey halg hexp
    simp [AuthService.verify_jwt_token, hkey, halg, hexp]
  · intro tok hbad
    rw [AuthService.verify_jwt_token, if_pos hbad]
  · intro f
    cases f <;> rfl
  · intro hdr sch t tok hsplit hscheme hdecode hkey halg hfresh hsub
    simp [AuthService.get_current_user_id, AuthService.extract_token_from_header,
      hsplit, hscheme, hdecode, AuthService.verify_jwt_token, hkey, halg,
      hfresh, hsub]
  · intro hdr sch t hsplit hscheme
    simp [AuthService.get_current_user_id, AuthService.extract_token_from_header,
      hsplit, hscheme]

/-- Witness for C6: concrete configuration, clock and tokens for each
branch. -/
theorem jwt_failures_are_distinct_401s_witness :
    (AuthService.verify_jwt_token ⟨"secret", "HS256"⟩ 100
        ⟨⟨"1", "U1", 50, 0⟩, "secret", "HS256"⟩ = .error .expired) ∧
    (AuthService.verify_jwt_token ⟨"secret", "HS256"⟩ 100
        ⟨⟨"1", "U1", 50, 0⟩, "wrong", "HS256"⟩ = .error .invalidToken) ∧
    (AuthService.get_current_user_id ⟨"secret", "HS256"⟩ 100
        (fun s => if s = "abc" then some ⟨⟨"x", "U1", 200, 0⟩, "secret", "HS256"⟩ else none)
        (some "Bearer abc") = .error .invalidUserId) ∧
    (AuthService.get_current_user_id ⟨"secret", "HS256"⟩ 100
        (fun s => if s = "abc" then some ⟨⟨"x", "U1", 200, 0⟩, "secret", "HS256"⟩ else none)
        none = .error .missingHeader) ∧
    (AuthService.get_current_user_id ⟨"secret", "HS256"⟩ 100
        (fun s => if s = "abc" then some ⟨⟨"x", "U1", 200, 0⟩, "secret", "HS256"⟩ else none)
        (some "Token abc") = .error .invalidScheme) := by
  have h1 := jwt_failures_are_distinct_401s ⟨"secret", "HS256"⟩ 100
    (fun s => if s = "abc" then some ⟨⟨"x", "U1", 200, 0⟩, "secret", "HS256"⟩ else none)
  refine ⟨h1.1 _ rfl rfl (by decide), h1.2.1 _ (Or.inl (by decide)), ?_, h1.2.2.2.2.2.1, ?_⟩
  · exact h1.2.2.2.2.1 "Bearer abc" "Bearer" "abc"
      ⟨⟨"x", "U1", 200, 0⟩, "secret", "HS256"⟩ (by decide) (by decide)
      (by decide) rfl rfl (by decide) (by decide)
  · exact h1.2.2.2.2.2.2 "Token abc" "Token" "abc" (by decide) (by decide)

theorem string_length_ne_zero {t : String} (h : t ≠ "") : t.length ≠ 0 := by
  intro h0
  apply h
  cases t with
  | mk data =>
    cases data with
    | nil => rfl
    | cons c cs => simp [String.length] at h0

/-- Counterexample to C4.  The location `"ABC"` is accepted by both the
schema validator and the service geohash check — the regex is matched
against a lowercased copy — yet the value kept (and hence stored) is the
original `"ABC"`, which is not lowercase and does not itself match the
pattern `[0-9a-z]+`.  So validation is case-insensitive, not restricted to
the pattern, and the stored value is not lowercase-normalized. -/
theorem location_not_lowercased_counterexample :
    PostSchemas.validate_location (some "ABC") = .ok (some "ABC") ∧
    PostSchemas.location_schema (some "ABC") = .ok (some "ABC") ∧
    pyLower "ABC" = "abc" ∧ "ABC" ≠ "abc" ∧
    PostSchemas.geohashPattern "ABC" = false ∧
    PostSchemas._validate_geohash "ABC" = none := by
  refine ⟨by rfl, by rfl, by rfl, by decide, by rfl, by rfl⟩

/-- C4 (amended).  The location validator accepts exactly the values whose
trimmed form is empty (normalized to absent) or matches `^[0-9a-z]+$` after
lowercasing, with trimmed length at most 12 (at least 1 being automatic
from nonemptiness); the value it keeps is the trimmed input with its
original case preserved — not the lowercase form.  The service-side
`_validate_geohash` accepts the same strings.  (The schema field
additionally caps the raw, untrimmed length at 12 before the validator
runs.) -/
theorem location_validation_case_insensitive_case_preserved :
    ∀ s : String,
      (pyStrip s = "" → PostSchemas.validate_location (some s) = .ok none) ∧
      (pyStrip s ≠ "" → PostSchemas.geohashPattern (pyLower (pyStrip s)) = true →
        (pyStrip s).length ≤ 12 →
        PostSchemas.validate_location (some s) = .ok (some (pyStrip s)) ∧
        PostSchemas._validate_geohash s = none) ∧
      (pyStrip s ≠ "" → PostSchemas.geohashPattern (pyLower (pyStrip s)) = false →
        PostSchemas.validate_location (some s) =
          .error "Location must be a valid GEOHASH (alphanumeric characters only)" ∧
        PostSchemas._validate_geohash s =
          some "GEOHASH must contain only alphanumeric characters") ∧
      (pyStrip s ≠ "" → PostSchemas.geohashPattern (pyLower (pyStrip s)) = true →
        12 < (pyStrip s).length →
        PostSchemas.validate_location (some s) =
          .error "GEOHASH must be between 1 and 12 characters" ∧
        PostSchemas._validate_geohash s =
          some "GEOHASH must be between 1 and 12 characters") ∧
      PostSchemas.validate_location none = .ok none := by
  intro s
  have hempty : s = "" → pyStrip s = "" := fun h => by
    subst h
    rfl
  refine ⟨?_, ?_, ?_, ?_, rfl⟩
  · intro h
    simp [PostSchemas.validate_location, h]
  · intro h hpat hlen
    have hcond2 : ¬ (s = "" ∨ pyStrip s = "") := by
      rintro (rfl | hs)
      exacts [h (hempty rfl), h hs]
    have hpos : (pyStrip s).length ≠ 0 := string_length_ne_zero h
    have hcond : ¬ ((pyStrip s).length < 1 ∨ 12 < (pyStrip s).length) := by
      rintro (hlt | hgt)
      exacts [hpos (Nat.lt_one_iff.mp hlt), absurd hlen (Nat.not_le.mpr hgt)]
    constructor
    · simp [PostSchemas.validate_location, h, hpat, hcond]
      exact ⟨hpos, hlen⟩
    · simp [PostSchemas._validate_geohash, hcond2, hpat, hcond]
      exact ⟨hpos, hlen⟩
  · intro h hpat
    have hcond2 : ¬ (s = "" ∨ pyStrip s = "") := by
      rintro (rfl | hs)
      exacts [h (hempty rfl), h hs]
    constructor
    · simp [PostSchemas.validate_location, h, hpat]
    · simp [PostSchemas._validate_geohash, hcond2, hpat]
  · intro h hpat hlen
    have hcond2 : ¬ (s = "" ∨ pyStrip s = "") := by
      rintro (rfl | hs)
      exacts [h (hempty rfl), h hs]
    constructor
    · simp [PostSchemas.validate_location, h, hpat, hlen]
    · simp [PostSchemas._validate_geohash, hcond2, hpat, hlen]

/-- Witness for C4 (amended): a lowercase geohash is kept verbatim, a
whitespace value collapses to `None`, a symbol is rejected, an overlong
geohash is rejected. -/
theorem location_validation_case_insensitive_case_preserved_witness :
    (PostSchemas.validate_location (some " u4pruyd ") = .ok (some "u4pruyd")) ∧
    (PostSchemas.validate_location (some "   ") = .ok none) ∧
    (PostSchemas.validate_location (some "u4p!") =
      .error "Location must be a valid GEOHASH (alphanumeric characters only)") ∧
    (PostSchemas.validate_location (some "u4pruydqqvjbx") =
      .error "GEOHASH must be between 1 and 12 characters") ∧
    (PostSchemas._validate_geohash "u4pruyd" = none) := by
  refine ⟨?_, ?_, ?_, ?_, ?_⟩
  · exact ((location_validation_case_insensitive_case_preserved " u4pruyd ").2.1
      (by decide) (by rfl) (by decide)).1
  · exact (location_validation_case_insensitive_case_preserved "   ").1 (by rfl)
  · exact ((location_validation_case_insensitive_case_preserved "u4p!").2.2.1
      (by decide) (by rfl)).1
  · exact ((location_validation_case_insensitive_case_preserved "u4pruydqqvjbx").2.2.2.1
      (by decide) (by rfl) (by decide)).1
  · exact ((location_validation_case_insensitive_case_preserved "u4pruyd").2.1
      (by decide) (by rfl) (by decide)).2

theorem Dec.ble_zero_iff (d : Dec) : d.ble Dec.zero = true ↔ d.val ≤ 0 := by
  rw [Dec.ble_iff_val, Dec.zero_val]

theorem Dec.zero_blt_iff (d : Dec) : Dec.zero.blt d = true ↔ 0 < d.val := by
  rw [Dec.blt_iff_val, Dec.zero_val]

theorem Dec.ble_million_iff (d : Dec) :
    d.ble Dec.million = true ↔ d.val ≤ 1000000 := by
  rw [Dec.ble_iff_val, Dec.million_val]

theorem Dec.million_blt_iff (d : Dec) :
    Dec.million.blt d = true ↔ 1000000 < d.val := by
  rw [Dec.blt_iff_val, Dec.million_val]

theorem numDigits_le {n k : Nat} (hk : 1 ≤ k) (h : n < 10 ^ k) :
    numDigits n ≤ k := by
  rcases Nat.eq_zero_or_pos n with rfl | hn
  · simpa [numDigits] using hk
  · have hlog : Nat.log 10 n < k := Nat.log_lt_of_lt_pow hn.ne' h
    rw [numDigits]
    omega

/-- C9.  Price acceptance at the creation/update validators: a non-positive
value is rejected, a value above 1,000,000.00 is rejected, a value written
with more than two fractional digits is rejected, and every value in
(0, 1000000.00] written with at most two fractional digits passes the
schema field constraints (`gt=0, max_digits=10, decimal_places=2`), the
schema validator, and both service-side validators. -/
theorem item_price_boundaries :
    ∀ d : Dec,
      (d.val ≤ 0 →
        ItemSchemas.validate_price d = .error "Price must be greater than 0" ∧
        ItemSchemas.price_schema_ok d = false ∧
        ItemService._validate_item_create_data ⟨"x", none, d⟩ =
          some (.validation "Item price must be greater than 0") ∧
        ItemService._validate_item_update_data ⟨none, none, some d⟩ =
          some (.validation "Item price must be greater than 0")) ∧
      (1000000 < d.val →
        ItemSchemas.validate_price d = .error "Price cannot exceed 1,000,000.00" ∧
        ItemService._validate_item_create_data ⟨"x", none, d⟩ =
          some (.validation "Item price cannot exceed 1,000,000.00") ∧
        ItemService._validate_item_update_data ⟨none, none, some d⟩ =
          some (.validation "Item price cannot exceed 1,000,000.00")) ∧
      (2 < d.scale →
        ItemSchemas.price_schema_ok d = false ∧
        (ItemSchemas.validate_price d).toBool = false) ∧
      (0 < d.val → d.val ≤ 1000000 → d.scale ≤ 2 →
        ItemSchemas.price_schema_ok d = true ∧
        ItemSchemas.validate_price d = .ok d ∧
        ItemService._validate_item_create_data ⟨"x", none, d⟩ = none ∧
        ItemService._validate_item_update_data ⟨none, none, some d⟩ = none) := by
  intro d
  have hxname : ¬ (pyStrip "x" = "") := by decide
  refine ⟨?_, ?_, ?_, ?_⟩
  · intro hval
    have hble : d.ble Dec.zero = true := (Dec.ble_zero_iff d).mpr hval
    have hblt : Dec.zero.blt d = false :=
      Bool.eq_false_iff.mpr fun hb =>
        absurd ((Dec.zero_blt_iff d).mp hb) (not_lt.mpr hval)
    refine ⟨?_, ?_, ?_, ?_⟩
    · simp [ItemSchemas.validate_price, hble]
    · simp [ItemSchemas.price_schema_ok, ItemSchemas.price_field_ok, hblt]
    · simp [ItemService._validate_item_create_data, hxname, hble]
    · simp [ItemService._validate_item_update_data, hble]
  · intro hval
    have hblt : Dec.million.blt d = true := (Dec.million_blt_iff d).mpr hval
    have hble : d.ble Dec.zero = false :=
      Bool.eq_false_iff.mpr fun hb =>
        absurd ((Dec.ble_zero_iff d).mp hb)
          (not_le.mpr (lt_trans (by norm_num) hval))
    refine ⟨?_, ?_, ?_⟩
    · simp [ItemSchemas.validate_price, hble, hblt]
    · simp [ItemService._validate_item_create_data, hxname, hble, hblt]
    · simp [ItemService._validate_item_update_data, hble, hblt]
  · intro hscale
    constructor
    · simp [ItemSchemas.price_schema_ok, ItemSchemas.price_field_ok,
        Dec.pydanticDecimals, Nat.not_le.mpr hscale]
    · rw [ItemSchemas.validate_price]
      split
      · rfl
      · split
        · rfl
        · rfl
  · intro hpos hle hscale
    have hblt : Dec.zero.blt d = true := (Dec.zero_blt_iff d).mpr hpos
    have hmant : 0 < d.mant := by
      have := hblt
      rw [Dec.blt, Dec.zero] at this
      simpa using this
    have hbleM : d.ble Dec.million = true := (Dec.ble_million_iff d).mpr hle
    have hble0 : d.ble Dec.zero = false :=
      Bool.eq_false_iff.mpr fun hb =>
        absurd ((Dec.ble_zero_iff d).mp hb) (not_le.mpr hpos)
    have hbltM : Dec.million.blt d = false :=
      Bool.eq_false_iff.mpr fun hb =>
        absurd ((Dec.million_blt_iff d).mp hb) (not_lt.mpr hle)
    have hm : d.mant * 10 ^ (2 : Nat) ≤ 100000000 * 10 ^ d.scale := by
      have := hbleM
      rw [Dec.ble, Dec.million] at this
      simpa using this
    have hpow : (10 : ℤ) ^ d.scale ≤ 10 ^ (2 : Nat) :=
      pow_le_pow_right (by norm_num) hscale
    have hmant8 : d.mant ≤ 100000000 := by
      have h2 : d.mant * 100 ≤ 100000000 * 100 := by
        calc d.mant * 100 = d.mant * 10 ^ (2 : Nat) := by norm_num
          _ ≤ 100000000 * 10 ^ d.scale := hm
          _ ≤ 100000000 * 10 ^ (2 : Nat) := by
              exact mul_le_mul_of_nonneg_left hpow (by norm_num)
          _ = 100000000 * 100 := by norm_num
      exact le_of_mul_le_mul_right h2 (by norm_num)
    have hnat : d.mant.natAbs < 10 ^ 9 := by
      have hval9 : (10 : ℤ) ^ (9 : Nat) = 1000000000 := by norm_num
      omega
    have hdig : numDigits d.mant.natAbs ≤ 9 := numDigits_le (by norm_num) hnat
    have hfield : ItemSchemas.price_field_ok d = true := by
      simp [ItemSchemas.price_field_ok, hblt, Dec.pydanticDigits,
        Dec.pydanticDecimals, hscale]
      omega
    have hvp : ItemSchemas.validate_price d = .ok d := by
      simp [ItemSchemas.validate_price, hble0, hbltM, Nat.not_lt.mpr hscale]
    refine ⟨?_, hvp, ?_, ?_⟩
    · simp [ItemSchemas.price_schema_ok, hfield, hvp, Except.toBool]
    · simp [ItemService._validate_item_create_data, hxname, hble0, hbltM]
    · simp [ItemService._validate_item_update_data, hble0, hbltM]

/-- Witness for C9: `0` rejected, `1000000.01` rejected, `10.999` rejected,
`1000000.00` and `29.99` accepted. -/
theorem item_price_boundaries_witness :
    (ItemSchemas.validate_price ⟨0, 0⟩ = .error "Price must be greater than 0") ∧
    (ItemSchemas.validate_price ⟨100000001, 2⟩ =
      .error "Price cannot exceed 1,000,000.00") ∧
    (ItemSchemas.price_schema_ok ⟨10999, 3⟩ = false) ∧
    (ItemSchemas.validate_price ⟨100000000, 2⟩ = .ok ⟨100000000, 2⟩) ∧
    (ItemSchemas.price_schema_ok ⟨2999, 2⟩ = true ∧
      ItemService._validate_item_create_data ⟨"x", none, ⟨2999, 2⟩⟩ = none) := by
  refine ⟨?_, ?_, ?_, ?_, ?_, ?_⟩
  · exact ((item_price_boundaries ⟨0, 0⟩).1
      ((Dec.ble_zero_iff ⟨0, 0⟩).mp (by rfl))).1
  · exact ((item_price_boundaries ⟨100000001, 2⟩).2.1
      ((Dec.million_blt_iff ⟨100000001, 2⟩).mp (by rfl))).1
  · exact ((item_price_boundaries ⟨10999, 3⟩).2.2.1 (by decide)).1
  · exact ((item_price_boundaries ⟨100000000, 2⟩).2.2.2
      ((Dec.zero_blt_iff ⟨100000000, 2⟩).mp (by rfl))
      ((Dec.ble_million_iff ⟨100000000, 2⟩).mp (by rfl)) (by decide)).2.1
  · exact ((item_price_boundaries ⟨2999, 2⟩).2.2.2
      ((Dec.zero_blt_iff ⟨2999, 2⟩).mp (by rfl))
      ((Dec.ble_million_iff ⟨2999, 2⟩).mp (by rfl)) (by decide)).1
  · exact ((item_price_boundaries ⟨2999, 2⟩).2.2.2
      ((Dec.zero_blt_iff ⟨2999, 2⟩).mp (by rfl))
      ((Dec.ble_million_iff ⟨2999, 2⟩).mp (by rfl)) (by decide)).2.2.1

/-- Inversion for a successful `get_by_id_or_raise`: the returned row is the
(first) row with that id and the caller owns it. -/
theorem get_by_id_or_raise_ok_inv {store : ItemStore} {item_id user_id : Nat}
    {it : Item}
    (h : ItemRepository.get_by_id_or_raise store item_id user_id = .ok it) :
    store.find? (fun x => x.id == item_id) = some it ∧ it.user_id = user_id := by
  rw [ItemRepository.get_by_id_or_raise] at h
  split at h
  · simp at h
  · rename_i ex hfind
    split at h
    · simp at h
    · rename_i hu
      push_neg at hu
      have hexid : ex.id = item_id := by
        have := List.find?_some hfind
        simpa using this
      have hown :
          store.find? (fun x => x.id == item_id && x.user_id == user_id) = some ex :=
        find?_strengthen hfind (by simp [hexid, hu])
          (owner_pred_imp_id_pred item_id user_id)
      rw [ItemRepository.get_by_id, hown] at h
      obtain rfl : ex = it := by simpa using h
      exact ⟨hfind, hu⟩

/-- C8.  Partial update: a payload with no fields set fails validation with
a 400 error before any repository call, leaving the store untouched; a
successful update applied exactly the fields present in the payload to the
first row with that id — every schema field absent from the payload keeps
its prior value, the identity fields (`id`, `user_id`, `created_at`) are
unchanged, and every other row of the store is untouched (`updated_at` is
the server-managed timestamp the database refreshes on any update). -/
theorem partial_update_applies_exactly_present_fields :
    ∀ (store : ItemStore) (item_id user_id : Nat) (u : ItemUpdate) (now : Nat),
      (u = ⟨none, none, none⟩ →
        ItemService.update_item store item_id user_id u now =
          .error (.validation "At least one field must be provided for update") ∧
        (ItemService.SvcError.validation
          "At least one field must be provided for update").status = 400) ∧
      (∀ it store2,
        ItemService.update_item store item_id user_id u now = .ok (it, store2) →
        ∃ old,
          store.find? (fun x => x.id == item_id) = some old ∧
          old.user_id = user_id ∧
          it = ItemRepository.applyUpdate old u now ∧
          store2 = store.map (fun x => if x.id == item_id then it else x) ∧
          it.name = u.name.getD old.name ∧
          (u.description = none → it.description = old.description) ∧
          (∀ dnew, u.description = some dnew → it.description = some dnew) ∧
          it.price = u.price.getD old.price ∧
          it.id = old.id ∧ it.user_id = old.user_id ∧
          it.created_at = old.created_at ∧ it.updated_at = some now) := by
  intro store item_id user_id u now
  constructor
  · rintro rfl
    exact ⟨by simp [ItemService.update_item,
      ItemService._validate_item_update_data], rfl⟩
  · intro it store2 hok
    rw [ItemService.update_item] at hok
    cases hv : ItemService._validate_item_update_data u with
    | some e =>
      rw [hv] at hok
      simp at hok
    | none =>
      rw [hv] at hok
      cases hup : ItemRepository.update store item_id user_id u now with
      | error e =>
        rw [hup] at hok
        cases e <;> simp at hok
      | ok r =>
        rw [hup] at hok
        obtain rfl : r = (it, store2) := by simpa using hok
        rw [ItemRepository.update] at hup
        cases hg : ItemRepository.get_by_id_or_raise store item_id user_id with
        | error e =>
          rw [hg] at hup
          simp at hup
        | ok old =>
          rw [hg] at hup
          obtain ⟨hold1, hold2⟩ := get_by_id_or_raise_ok_inv hg
          obtain ⟨hit, hstore2⟩ :
              ItemRepository.applyUpdate old u now = it ∧
              store.map (fun x =>
                if x.id == item_id then ItemRepository.applyUpdate old u now
                else x) = store2 := by
            simpa using hup
          subst hit
          subst hstore2
          refine ⟨old, hold1, hold2, rfl, rfl, rfl, ?_, ?_, rfl, rfl, rfl, rfl, rfl⟩
          · intro hd
            simp [ItemRepository.applyUpdate, hd]
          · intro dnew hd
            simp [ItemRepository.applyUpdate, hd]

/-- Witness for C8: an empty payload is rejected 400; a name-only payload
changes the name, stamps `updated_at`, and leaves description, price and
identity fields as they were. -/
theorem partial_update_applies_exactly_present_fields_witness :
    (ItemService.update_item [⟨1, "Old", some "d", ⟨100, 2⟩, 1, 0, none⟩] 1 1
        ⟨none, none, none⟩ 5 =
      .error (.validation "At least one field must be provided for update")) ∧
    ∃ old,
      [(⟨1, "Old", some "d", ⟨100, 2⟩, 1, 0, none⟩ : Item)].find?
          (fun x => x.id == 1) = some old ∧
      old.user_id = 1 ∧
      (⟨1, "New", some "d", ⟨100, 2⟩, 1, 0, some 5⟩ : Item) =
        ItemRepository.applyUpdate old ⟨some "New", none, none⟩ 5 ∧
      ([⟨1, "New", some "d", ⟨100, 2⟩, 1, 0, some 5⟩] : ItemStore) =
        [⟨1, "Old", some "d", ⟨100, 2⟩, 1, 0, none⟩].map
          (fun x => if x.id == 1 then ⟨1, "New", some "d", ⟨100, 2⟩, 1, 0, some 5⟩ else x) ∧
      (⟨1, "New", some "d", ⟨100, 2⟩, 1, 0, some 5⟩ : Item).name =
        (some "New").getD old.name ∧
      ((none : Option String) = none →
        (⟨1, "New", some "d", ⟨100, 2⟩, 1, 0, some 5⟩ : Item).description = old.description) ∧
      (∀ dnew, (none : Option String) = some dnew →
        (⟨1, "New", some "d", ⟨100, 2⟩, 1, 0, some 5⟩ : Item).description = some dnew) ∧
      (⟨1, "New", some "d", ⟨100, 2⟩, 1, 0, some 5⟩ : Item).price =
        (none : Option Dec).getD old.price ∧
      (⟨1, "New", some "d", ⟨100, 2⟩, 1, 0, some 5⟩ : Item).id = old.id ∧
      (⟨1, "New", some "d", ⟨100, 2⟩, 1, 0, some 5⟩ : Item).user_id = old.user_id ∧
      (⟨1, "New", some "d", ⟨100, 2⟩, 1, 0, some 5⟩ : Item).created_at = old.created_at ∧
      (⟨1, "New", some "d", ⟨100, 2⟩, 1, 0, some 5⟩ : Item).updated_at = some 5 := by
  constructor
  · exact ((partial_update_applies_exactly_present_fields
      [⟨1, "Old", some "d", ⟨100, 2⟩, 1, 0, none⟩] 1 1 ⟨none, none, none⟩ 5).1 rfl).1
  · exact (partial_update_applies_exactly_present_fields
      [⟨1, "Old", some "d", ⟨100, 2⟩, 1, 0, none⟩] 1 1 ⟨some "New", none, none⟩ 5).2
      ⟨1, "New", some "d", ⟨100, 2⟩, 1, 0, some 5⟩
      [⟨1, "New", some "d", ⟨100, 2⟩, 1, 0, some 5⟩] (by rfl)

/-- C5.  `search_items` derives `total` purely from whether the returned
page is full: with `k` rows returned at page `p` of size `s`, `total` is
`p*s` when `k = s` and `(p-1)*s + k` otherwise, and `total_pages` is the
ceiling `(total + s - 1) / s` of that estimate — no count query is
involved: the result is a pure function of the single fetched page. -/
theorem search_total_estimated_from_full_page :
    ∀ (store : ItemStore) (user_id : Nat) (query : String) (page page_size : Nat),
      pyStrip query ≠ "" → 1 ≤ page → 1 ≤ page_size → page_size ≤ 100 →
      ∃ resp, ItemService.search_items store user_id query page page_size = .ok resp ∧
        resp.items = ItemRepository.search_for_user store user_id (pyStrip query)
          ((page - 1) * page_size) page_size ∧
        resp.total = (if resp.items.length = page_size then page * page_size
          else (page - 1) * page_size + resp.items.length) ∧
        resp.total_pages = (resp.total + page_size - 1) / page_size ∧
        resp.items.length ≤ page_size := by
  intro store user_id query page page_size hq hpage hsize hsize100
  have hq0 : ¬ (query = "" ∨ pyStrip query = "") := by
    rintro (rfl | hs)
    exacts [hq rfl, hq hs]
  have hcond2 : ¬ page < 1 := Nat.not_lt.mpr hpage
  have hcond3 : ¬ (page_size < 1 ∨ 100 < page_size) := by
    rintro (hlt | hgt)
    exacts [absurd hsize (Nat.not_le.mpr hlt), absurd hsize100 (Nat.not_le.mpr hgt)]
  rw [ItemService.search_items, if_neg hq0, if_neg hcond2, if_neg hcond3]
  refine ⟨_, rfl, rfl, rfl, rfl, ?_⟩
  simp [ItemRepository.search_for_user]

/-- Witness for C5: two matching rows, page 1 of size 2 — a full page, so
`total` is estimated as `1 * 2 = 2` and `total_pages` as 1. -/
theorem search_total_estimated_from_full_page_witness :
    ∃ resp,
      ItemService.search_items
        [⟨1, "apple", none, ⟨100, 2⟩, 1, 0, none⟩,
         ⟨2, "apricot", none, ⟨200, 2⟩, 1, 1, none⟩] 1 "ap" 1 2 = .ok resp ∧
      resp.items = ItemRepository.search_for_user
        [⟨1, "apple", none, ⟨100, 2⟩, 1, 0, none⟩,
         ⟨2, "apricot", none, ⟨200, 2⟩, 1, 1, none⟩] 1 (pyStrip "ap") ((1 - 1) * 2) 2 ∧
      resp.total = (if resp.items.length = 2 then 1 * 2 else (1 - 1) * 2 + resp.items.length) ∧
      resp.total_pages = (resp.total + 2 - 1) / 2 ∧
      resp.items.length ≤ 2 :=
  search_total_estimated_from_full_page
    [⟨1, "apple", none, ⟨100, 2⟩, 1, 0, none⟩,
     ⟨2, "apricot", none, ⟨200, 2⟩, 1, 1, none⟩] 1 "ap" 1 2
    (by decide) (by decide) (by decide) (by decide)

/-- From a validator pass, extract that the price bounds are not inverted. -/
theorem validate_list_request_none_bounds
    {request : ItemService.ItemListRequest}
    (h : ItemService._validate_list_request request = none) :
    ∀ lo hi, request.min_price = some lo → request.max_price = some hi →
      hi.ble lo = false := by
  intro lo hi hlo hhi
  rw [ItemService._validate_list_request] at h
  split at h
  · simp at h
  · split at h
    · simp at h
    · split at h
      · simp at h
      · split at h
        · simp at h
        · split at h
          · simp at h
          · rename_i hcond
            rw [hlo, hhi] at hcond
            simpa using Bool.eq_false_iff.mpr (by simpa using hcond)

theorem Dec.ble_of_blt {a b : Dec} (h : a.blt b = true) : a.ble b = true := by
  rw [Dec.blt] at h
  rw [Dec.ble]
  simpa using le_of_lt (by simpa using h)

theorem effBound_eq_some {b : Option Dec} {m : Dec}
    (h : ItemService.effBound b = some m) : b = some m := by
  cases b with
  | none => simp [ItemService.effBound] at h
  | some x =>
    rw [ItemService.effBound] at h
    by_cases hx : x.mant = 0
    · simp [hx] at h
    · simp [hx] at h
      rw [h]

theorem length_filter_owner_and_lt {store : ItemStore} {user_id : Nat}
    {p : Item → Bool}
    (h : ∃ it ∈ store, it.user_id = user_id ∧ p it = false) :
    (store.filter (fun it => it.user_id == user_id && p it)).length <
      (store.filter (fun it => it.user_id == user_id)).length := by
  obtain ⟨bad, hmem, huid, hp⟩ := h
  have heq : store.filter (fun it => it.user_id == user_id && p it) =
      (store.filter (fun it => it.user_id == user_id)).filter p := by
    rw [List.filter_filter]
    exact List.filter_congr (fun x _ => by rw [Bool.and_comm])
  rw [heq]
  refine List.length_filter_lt_length_iff_exists.mpr ⟨bad, ?_, by simp [hp]⟩
  simp [List.mem_filter, hmem, huid]

/-- C10.  When `get_items_for_user` runs with a nonempty search term or a
price-range filter, the `total` it reports (and the `total_pages` derived
from it) is the owner's unfiltered row count from `count_for_user`, not the
number of rows matching the filter; consequently, whenever any of the
owner's rows falls outside the filter, `total` strictly exceeds the number
of rows the full filtered result set contains. -/
theorem filtered_list_total_is_owner_count :
    ∀ (store : ItemStore) (user_id : Nat)
      (request : ItemService.ItemListRequest),
      ItemService._validate_list_request request = none →
      ((match request.search with
        | some q => q ≠ ""
        | none => False) ∨
        request.min_price.isSome ∨ request.max_price.isSome) →
      ∃ resp, ItemService.get_items_for_user store user_id request = .ok resp ∧
        resp.total = (store.filter (fun it => it.user_id == user_id)).length ∧
        resp.total_pages = (resp.total + request.page_size - 1) / request.page_size ∧
        ((∃ it ∈ store, it.user_id = user_id ∧
            ItemService.rowMatches request it = false) →
          (store.filter (fun it => it.user_id == user_id &&
            ItemService.rowMatches request it)).length < resp.total) := by
  intro store user_id request hval hfilter
  have hstrict : ∀ resp : ItemService.ItemListResponse,
      resp.total = ItemRepository.count_for_user store user_id →
      ((∃ it ∈ store, it.user_id = user_id ∧
          ItemService.rowMatches request it = false) →
        (store.filter (fun it => it.user_id == user_id &&
          ItemService.rowMatches request it)).length < resp.total) := by
    intro resp htot hbad
    rw [htot, ItemRepository.count_for_user]
    exact length_filter_owner_and_lt hbad
  have hconc : ∀ items0 : List Item,
      ItemService.get_items_for_user store user_id request = .ok
        ⟨items0, ItemRepository.count_for_user store user_id, request.page,
          request.page_size,
          (ItemRepository.count_for_user store user_id + request.page_size - 1) /
            request.page_size⟩ →
      ∃ resp, ItemService.get_items_for_user store user_id request = .ok resp ∧
        resp.total = (store.filter (fun it => it.user_id == user_id)).length ∧
        resp.total_pages = (resp.total + request.page_size - 1) / request.page_size ∧
        ((∃ it ∈ store, it.user_id = user_id ∧
            ItemService.rowMatches request it = false) →
          (store.filter (fun it => it.user_id == user_id &&
            ItemService.rowMatches request it)).length < resp.total) := by
    intro items0 hresp
    exact ⟨_, hresp, rfl, rfl, hstrict _ rfl⟩
  have hprice : ((match request.search with
        | some q => q != ""
        | none => false) : Bool) = false →
      (request.min_price.isSome ∨ request.max_price.isSome) →
      ∃ resp, ItemService.get_items_for_user store user_id request = .ok resp ∧
        resp.total = (store.filter (fun it => it.user_id == user_id)).length ∧
        resp.total_pages = (resp.total + request.page_size - 1) / request.page_size ∧
        ((∃ it ∈ store, it.user_id = user_id ∧
            ItemService.rowMatches request it = false) →
          (store.filter (fun it => it.user_id == user_id &&
            ItemService.rowMatches request it)).length < resp.total) := by
    intro hnosearch hsome
    have hns : ¬ ((match request.search with
        | some q => q != ""
        | none => false) : Bool) = true := by
      rw [hnosearch]
      exact Bool.false_ne_true
    cases heffmin : ItemService.effBound request.min_price with
    | some lo =>
      cases heffmax : ItemService.effBound request.max_price with
      | some hi =>
        have hble : hi.ble lo = false :=
          validate_list_request_none_bounds hval lo hi
            (effBound_eq_some heffmin) (effBound_eq_some heffmax)
        have hblt : hi.blt lo = false := by
          cases hb : hi.blt lo with
          | false => rfl
          | true =>
            have hb2 := Dec.ble_of_blt hb
            rw [hb2] at hble
            simp at hble
        refine hconc (ItemRepository.get_user_items_by_price_range.priceQuery
          store user_id (some lo) (some hi) ((request.page - 1) * request.page_size) request.page_size) ?_
        simp only [ItemService.get_items_for_user, hval]
        rw [if_neg hns, if_pos hsome]
        simp only [heffmin, heffmax, ItemRepository.get_user_items_by_price_range,
          hblt, Bool.false_eq_true, if_false]
      | none =>
        refine hconc (ItemRepository.get_user_items_by_price_range.priceQuery
          store user_id (some lo) none ((request.page - 1) * request.page_size) request.page_size) ?_
        simp only [ItemService.get_items_for_user, hval]
        rw [if_neg hns, if_pos hsome]
        simp only [heffmin, heffmax, ItemRepository.get_user_items_by_price_range]
    | none =>
      cases heffmax : ItemService.effBound request.max_price with
      | some hi =>
        refine hconc (ItemRepository.get_user_items_by_price_range.priceQuery
          store user_id none (some hi) ((request.page - 1) * request.page_size) request.page_size) ?_
        simp only [ItemService.get_items_for_user, hval]
        rw [if_neg hns, if_pos hsome]
        simp only [heffmin, heffmax, ItemRepository.get_user_items_by_price_range]
      | none =>
        refine hconc (ItemRepository.get_user_items_by_price_range.priceQuery
          store user_id none none ((request.page - 1) * request.page_size) request.page_size) ?_
        simp only [ItemService.get_items_for_user, hval]
        rw [if_neg hns, if_pos hsome]
        simp only [heffmin, heffmax, ItemRepository.get_user_items_by_price_range]
  cases hsearch : request.search with
  | some q =>
    by_cases hq : q = ""
    · subst hq
      rcases hfilter with hleft | hsome
      · rw [hsearch] at hleft
        exact absurd rfl hleft
      · refine hprice ?_ hsome
        rw [hsearch]
        rfl
    · have hbranch : ((match request.search with
          | some q => q != ""
          | none => false) : Bool) = true := by
        rw [hsearch]
        simpa using hq
      refine hconc (ItemRepository.search_for_user store user_id
        (request.search.getD "") ((request.page - 1) * request.page_size) request.page_size) ?_
      simp only [ItemService.get_items_for_user, hval]
      rw [if_pos hbranch]
  | none =>
    rcases hfilter with hleft | hsome
    · rw [hsearch] at hleft
      exact hleft.elim
    · refine hprice ?_ hsome
      rw [hsearch]

/-- Witness for C10: a search for "app" over two owned rows reports the
unfiltered owner count as `total`. -/
theorem filtered_list_total_is_owner_count_witness :
    ∃ resp,
      ItemService.get_items_for_user
        ([⟨1, "apple", none, ⟨100, 2⟩, 1, 0, none⟩,
          ⟨2, "banana", none, ⟨200, 2⟩, 1, 1, none⟩] : ItemStore) 1
        (⟨1, 20, .created_at, .desc, some "app", none, none⟩ :
          ItemService.ItemListRequest) = .ok resp ∧
      resp.total = (([⟨1, "apple", none, ⟨100, 2⟩, 1, 0, none⟩,
          ⟨2, "banana", none, ⟨200, 2⟩, 1, 1, none⟩] : ItemStore).filter
          (fun it => it.user_id == 1)).length ∧
      resp.total_pages = (resp.total + 20 - 1) / 20 ∧
      ((∃ it ∈ ([⟨1, "apple", none, ⟨100, 2⟩, 1, 0, none⟩,
           ⟨2, "banana", none, ⟨200, 2⟩, 1, 1, none⟩] : ItemStore), it.user_id = 1 ∧
          ItemService.rowMatches
            (⟨1, 20, .created_at, .desc, some "app", none, none⟩ :
              ItemService.ItemListRequest) it = false) →
        (([⟨1, "apple", none, ⟨100, 2⟩, 1, 0, none⟩,
           ⟨2, "banana", none, ⟨200, 2⟩, 1, 1, none⟩] : ItemStore).filter
            (fun it => it.user_id == 1 &&
              ItemService.rowMatches
                (⟨1, 20, .created_at, .desc, some "app", none, none⟩ :
                  ItemService.ItemListRequest) it)).length
          < resp.total) :=
  filtered_list_total_is_owner_count
    ([⟨1, "apple", none, ⟨100, 2⟩, 1, 0, none⟩,
      ⟨2, "banana", none, ⟨200, 2⟩, 1, 1, none⟩] : ItemStore) 1
    (⟨1, 20, .created_at, .desc, some "app", none, none⟩ :
      ItemService.ItemListRequest) (by decide)
    (Or.inl (by decide))
